import Mathlib

/-!
# Verification of the container-build configuration and mount resolution core

Shallow embedding of `container_build.py`: the `ConfigMerger` precedence
engine (CLI args > environment > config file > defaults), the `Options`
effective-configuration object, the `collect_volumes` mount resolver, and
the control flow of `main` up to the point where external processes
(docker build / docker run) would be invoked.

Python values flowing through the resolver are strings, ints, booleans and
lists (from `argparse` `append`/`count`/`store_const` actions and from the
ini file); they are embedded as the inductive `Value`.  Python `None` is
embedded as `Option.none`.  Machine-level details (file descriptors, real
processes) are outside the model: the filesystem is an explicit `FS`
record, and `main` is modelled as a function from a `World` (parsed args,
environment, file contents, filesystem, uid/gid) to a `MainOutcome`.
-/

namespace ContainerBuild

/-! ## Constants (module-level defaults of `container_build.py`) -/

def CONFIG_DIRECTORY : String := "container-build"
def DEFAULT_APT_KEYS : String := "container-build/apt-keys"
def DEFAULT_APT_SOURCES_FILE : String := "container-build/sources.list"
def DEFAULT_BASE_IMAGE : String := "debian:stretch-slim"
def DEFAULT_CONFIG_FILE : String := "container-build/build.cfg"
def DEFAULT_DOCKER : String := "docker"
def DEFAULT_DOCKER_HOST : String := "unix:///var/run/docker.sock"
def DEFAULT_DOCKER_RUN_FLAGS : String := "--interactive --tty --rm --env LC_ALL=C.UTF-8"
def DEFAULT_HOME_DIR : String := "/home/build"
def DEFAULT_INSTALL_SCRIPT : String := "container-build/install.sh"
def DEFAULT_PACKAGES_FILE : String := "container-build/packages"
def DEFAULT_SHELL : String := "/bin/bash"
def DEFAULT_USERNAME : String := "build"
def DEFAULT_WORK_DIR : String := "src"
def SCRIPTS_DIR : String := "scripts"
def APT_KEYS_DIR : String := "apt-keys"

/-! ## Python string helpers

Python-`str` operations used by the source (`str.lower`, `str.strip`,
`str.replace('-','_')`, `re.split`, `int(...)`), implemented by structural
recursion over the character list so that every concrete instance reduces
inside the kernel. -/

/-- The characters Python treats as whitespace in `str.strip` and
`re.split(r'\s+')`. -/
def isSpaceChar (c : Char) : Bool :=
  c = ' ' || c = '\t' || c = '\n' || c = '\r' || c = '\x0b' || c = '\x0c'

/-- Split a character list at every character satisfying `p` (splitting
keeps empty pieces, like `str.split(sep)` / `re.split`). -/
def splitWhen (p : Char → Bool) : List Char → List (List Char)
  | [] => [[]]
  | c :: cs =>
    match splitWhen p cs with
    | h :: t => if p c then [] :: h :: t else (c :: h) :: t
    | [] => [[c]]

/-- Python `str.strip()`: drop leading and trailing whitespace. -/
def pyStrip (s : String) : String :=
  String.mk (((s.toList.dropWhile isSpaceChar).reverse.dropWhile
    isSpaceChar).reverse)

/-- Python `str.lower()` (ASCII lowering, which is all the source needs;
`configparser`'s default `optionxform` is exactly `str.lower`). -/
def pyLower (s : String) : String :=
  String.mk (s.toList.map Char.toLower)

/-- `name.replace('-', '_')` (single-character replacement). -/
def underscoreName (s : String) : String :=
  String.mk (s.toList.map (fun c => if c = '-' then '_' else c))

/-- Does the string start with the character `c`? -/
def strHeadIs (s : String) (c : Char) : Bool :=
  match s.toList with
  | [] => false
  | d :: _ => d = c

/-- Does the string end with the character `c`? -/
def strLastIs (s : String) (c : Char) : Bool :=
  match s.toList.getLast? with
  | some d => d = c
  | none => false

/-- Decimal digits to a natural number; `none` on a non-digit. -/
def pyDigitsAux : List Char → Nat → Option Nat
  | [], acc => some acc
  | c :: cs, acc =>
    if c.isDigit then pyDigitsAux cs (acc * 10 + (c.toNat - 48)) else none

/-- Python `int(s)` on a string: strip whitespace, allow one leading sign,
then decimal digits; anything else raises `ValueError` (`none` here).
(Underscore digit grouping is not modelled; no input uses it.) -/
def pyIntParse (s : String) : Option Int :=
  match (pyStrip s).toList with
  | [] => none
  | '+' :: rest =>
    if rest.isEmpty then none else (pyDigitsAux rest 0).map Int.ofNat
  | '-' :: rest =>
    if rest.isEmpty then none else (pyDigitsAux rest 0).map (fun n => -(n : Int))
  | cs => (pyDigitsAux cs 0).map Int.ofNat

/-! ## Python values -/

/-- A Python value as it occurs in the resolver: strings (CLI and config
values), ints (`type=int` args, `count` actions, `os.geteuid`), booleans
(`store_const` flags and the bare-ini-key `True`), and lists of values
(`append` actions).  Python `None` is represented by `Option.none` at use
sites, not by a constructor. -/
inductive Value where
  | str (s : String)
  | int (n : Int)
  | bool (b : Bool)
  | list (xs : List Value)

/-- Python truthiness of a value (`bool(v)`): empty string, zero, `False`
and the empty list are falsy. -/
def Value.truthy : Value → Bool
  | .str s => s != ""
  | .int n => n != 0
  | .bool b => b
  | .list xs => !xs.isEmpty

/-- Truthiness of an optional value: Python `None` is falsy. -/
def optTruthy : Option Value → Bool
  | none => false
  | some v => v.truthy

/-- Python `v == 0` on an optional value.  `None == 0` is `False`; a
string never equals an int; Python booleans are ints (`False == 0`). -/
def pyEqZero : Option Value → Bool
  | some (.int n) => n == 0
  | some (.bool b) => !b
  | _ => false

/-- Python `int(v)`.  `int` of an int or bool succeeds; `int` of a string
parses an optionally signed decimal (raising `ValueError` otherwise);
`int` of a list raises `TypeError`.  Errors are returned as messages. -/
def pyInt : Value → Except String Int
  | .int n => .ok n
  | .bool b => .ok (if b then 1 else 0)
  | .str s =>
    match pyIntParse s with
    | some n => .ok n
    | none => .error "ValueError: invalid literal for int"
  | .list _ => .error "TypeError: int argument must not be a list"

/-! ## ConfigMerger -/

/-- The state of a `ConfigMerger`: the `argparse` namespace (attribute
lookup by underscore name, `None` for attributes that are absent or were
not passed), the process environment (`os.getenv`), and the items of the
active (first) config-file section when one was loaded.  A config item
maps a key to `some value` for `key = value` lines and to `none` for bare
keys (`allow_no_value=True`). -/
structure Merger where
  args : String → Option Value
  env : String → Option String
  config : Option (List (String × Option String))

/-- Lookup of a key in the active section, as `has_option`/`get` of
`configparser` perform it: the stored key and the queried key are both
passed through the default `optionxform`, which lowercases them, so the
match is case-insensitive.  (Value interpolation of percent placeholders
is not modelled; no value used in the development contains a percent
sign.) -/
def sectionLookup (sec : List (String × Option String)) (name : String) :
    Option (Option String) :=
  (sec.find? (fun p => pyLower p.1 == pyLower name)).map Prod.snd

/-- `ConfigMerger.get_or_else`: the CLI argument (attribute
`name.replace('-','_')` of the args namespace) if it is not `None`, else
the config-file entry for `name` in the active section (a bare key
resolving to `True`), else the default.  The Python default parameter is a
callable evaluated at the end (`os.geteuid` etc.); the model is pure, so
the default is passed as the value the callable would return. -/
def Merger.get_or_else (m : Merger) (name : String) (default : Option Value) :
    Option Value :=
  match m.args (underscoreName name) with
  | some arg => some arg
  | none =>
    match m.config with
    | some sec =>
      match sectionLookup sec name with
      | some (some v) => some (.str v)
      | some none => some (.bool true)
      | none => default
    | none => default

/-- `ConfigMerger.get`: `get_or_else` with the default wrapped in a
constant lambda, which is extensionally the same as `get_or_else`. -/
def Merger.get (m : Merger) (name : String) (default : Option Value) :
    Option Value :=
  m.get_or_else name default

/-- `ConfigMerger.get_flag`: a resolved boolean is taken as-is; any other
non-`None` value counts as `True`; `None` is `False`. -/
def Merger.get_flag (m : Merger) (name : String) : Bool :=
  match m.get name none with
  | some (.bool b) => b
  | some _ => true
  | none => false

/-- `ConfigMerger.get_list`: a list stays as-is, a non-`None` scalar is
wrapped into a one-element list, `None` becomes the empty list.  (The
default passed by the source is the empty list, so the `None` arm is
unreachable there but kept for fidelity.) -/
def Merger.get_list (m : Merger) (name : String) : List Value :=
  match m.get name (some (.list [])) with
  | some (.list xs) => xs
  | some v => [v]
  | none => []

/-- `ConfigMerger.get_env`: the environment variable `name` is consulted
first; only if it is unset does resolution fall through to
`get(name.lower(), default)` — i.e. the args namespace, the config file
(under the lowercased, underscore-separated key) and the default. -/
def Merger.get_env (m : Merger) (name : String) (default : Option Value) :
    Option Value :=
  match m.env name with
  | some v => some (.str v)
  | none => m.get (pyLower name) default

/-- The `default` parameter of `ConfigMerger.get_file`: the source passes
either a single path string or a list of candidate path strings, and
branches on `isinstance(default, list)`. -/
inductive FileDefault where
  | single (p : String)
  | many (ps : List String)
deriving DecidableEq, Repr

/-- `ConfigMerger.get_file`: an explicit CLI/config value wins unchanged;
otherwise a `None` default or a truthy `no-<name>` option suppresses the
default entirely; otherwise a list default is filtered to the candidates
that exist on disk (returned only when non-empty — when none exist the
function falls through and returns `None`), and a single default is
returned only when it exists. -/
def get_file (m : Merger) (pathExists : String → Bool) (name : String)
    (default : Option FileDefault) : Option Value :=
  match m.get name none with
  | some arg => some arg
  | none =>
    if default.isNone || optTruthy (m.get ("no-" ++ name) none) then
      none
    else
      match default with
      | some (.many ds) =>
        let present := ds.filter pathExists
        if present.isEmpty then none else some (.list (present.map .str))
      | some (.single d) => if pathExists d then some (.str d) else none
      | none => none

/-! ## Config-file loading (`ConfigMerger.__init__`) -/

/-- Split an ini option line at the first `=` or `:` delimiter, stripping
whitespace around key and value as `configparser` does.  A line with no
delimiter is a bare key (`allow_no_value=True`). -/
def splitKV (s : String) : String × Option String :=
  match s.toList.findIdx? (fun c => c = '=' || c = ':') with
  | none => (pyStrip s, none)
  | some i =>
    (pyStrip (String.mk (s.toList.take i)),
     some (pyStrip (String.mk (s.toList.drop (i + 1)))))

/-- Line-by-line ini parsing, modelling Python `configparser.ConfigParser`
with `allow_no_value=True`: blank lines and `#`/`;` comment lines are
skipped, `[name]` opens a new section, and any other line is an option of
the current section.  An option line appearing before the first section
header raises `MissingSectionHeaderError` — `ConfigParser.read` does NOT
swallow parse errors (it only swallows a missing file).  Not modelled:
indented continuation lines, duplicate-section/option errors and percent
interpolation; no input used in this development contains those. -/
def iniParseLines :
    List String → Option (String × List (String × Option String)) →
    List (String × List (String × Option String)) →
    Except String (List (String × List (String × Option String)))
  | [], cur, acc =>
    .ok (acc ++ (match cur with | some s => [s] | none => []))
  | line :: rest, cur, acc =>
    let s := pyStrip line
    if s == "" || strHeadIs s '#' || strHeadIs s ';' then
      iniParseLines rest cur acc
    else if strHeadIs s '[' && strLastIs s ']' then
      let name := String.mk ((s.toList.drop 1).dropLast)
      match cur with
      | some c => iniParseLines rest (some (name, [])) (acc ++ [c])
      | none => iniParseLines rest (some (name, [])) acc
    else
      match cur with
      | none => .error "MissingSectionHeaderError: file contains no section headers"
      | some (secName, items) =>
        iniParseLines rest (some (secName, items ++ [splitKV s])) acc

/-- `ConfigParser().read` of a whole file content. -/
def iniParse (content : String) :
    Except String (List (String × List (String × Option String))) :=
  iniParseLines ((splitWhen (fun c => c = '\n') content.toList).map String.mk)
    none []

/-- `ConfigMerger.__init__`: the config-file path is resolved through
`get_file` (explicit value, else the default path when it exists and the
`no-config-file` option is not set).  When a path was resolved and the
file is readable, its content is parsed; a parse error propagates as an
uncaught exception (`Except.error`).  When the parsed file has at least
one section, the first section becomes the active one; otherwise (and
when the file is missing or no path was resolved) `config` stays `None`
and every lookup falls through to CLI/env/defaults. -/
def initConfig (args : String → Option Value) (env : String → Option String)
    (files : String → Option String) (pathExists : String → Bool) :
    Except String Merger :=
  let m0 : Merger := ⟨args, env, none⟩
  match get_file m0 pathExists "config-file" (some (.single DEFAULT_CONFIG_FILE)) with
  | none => .ok m0
  | some (.str path) =>
    match files path with
    | none => .ok m0
    | some content =>
      match iniParse content with
      | .error e => .error e
      | .ok [] => .ok m0
      | .ok (sec :: _) => .ok { m0 with config := some sec.2 }
  | some _ => .error "TypeError: argument should be a str or an os.PathLike object"

/-! ## Filesystem model and mount resolution (`collect_volumes`) -/

/-- The filesystem as seen by the mount resolver and by `get_file`.
`resolve` is `pathlib.Path.resolve()` as the source's Python runs it: the
source requires Python 3.6+ (it is full of f-strings), where `resolve()`
defaults to `strict=False` — it canonicalizes a (possibly relative,
possibly symlinked) path as far as possible and *never raises* for a
nonexistent path; it simply returns the absolutized path.  It is
therefore a total function.  `isDir` is `Path.is_dir` on a resolved path
(`false` for a nonexistent path).  `scandir` lists the direct child
names of a resolved directory path in scan order; `isSymlink dir child`
is `DirEntry.is_symlink` (lstat-based) and `childIsDir dir child` is
`DirEntry.is_dir` (follows the link).  `listdir` is `os.listdir`,
returning `none` when the directory cannot be listed (`OSError`). -/
structure FS where
  pathExists : String → Bool
  resolve : String → String
  isDir : String → Bool
  scandir : String → List String
  isSymlink : String → String → Bool
  childIsDir : String → String → Bool
  listdir : String → Option (List String)

/-- `pathlib.Path(s).name`: the final path component after dropping empty
and `.` components; the empty string when there is none (e.g. for `.` or
`/`). -/
def pyName (s : String) : String :=
  (((splitWhen (fun c => c = '/') s.toList).map String.mk).filter
    (fun c => !(c == "" || c == "."))).getLast?.getD ""

/-- `pathlib.Path(a, b)`: `b` wins when absolute, disappears when empty,
otherwise the components are joined with a slash. -/
def pathJoin (a b : String) : String :=
  if b = "" then a
  else if strHeadIs b '/' then b
  else if a = "" then b
  else if strLastIs a '/' then a ++ b
  else a ++ "/" ++ b

/-- The inner loop of `collect_volumes`: for every direct child of the
resolved mount source `src` that is a symlink resolving to a directory,
record its resolved path mapped to `dst / childName`.  Total, because
non-strict `Path.resolve` cannot fail. -/
def expandChildren (fs : FS) (src dst : String) :
    List String → List (String × String)
  | [] => []
  | c :: cs =>
    if fs.isSymlink src c && fs.childIsDir src c then
      (fs.resolve (pathJoin src c), pathJoin dst c) :: expandChildren fs src dst cs
    else
      expandChildren fs src dst cs

/-- The body of `collect_volumes` for one element of the mount list:
resolve the argument (non-strict — a nonexistent path resolves to itself
and is *not* an error), map it to `work_dir / basename(arg)`, and, when
recursion is on and the source is a directory, add the
symlinked-subdirectory entries.  A nonexistent source is not a directory,
so it contributes exactly its own (dangling) entry. -/
def expandMount (fs : FS) (work_dir : String) (recursive : Bool)
    (mount_arg : String) : List (String × String) :=
  let src := fs.resolve mount_arg
  let dst := pathJoin work_dir (pyName mount_arg)
  if recursive && fs.isDir src then
    (src, dst) :: expandChildren fs src dst (fs.scandir src)
  else
    [(src, dst)]

/-- `collect_volumes`: the mount arguments are processed in order and
their entries accumulated into one association list; the Python `dict`
content is recovered from it by last-writer-wins lookup (`volLookup`).
On the Python the source requires (3.6+), nothing in the loop raises
`FileNotFoundError` — the `except FileNotFoundError` handler around the
call in `main` (lines 78–82) is unreachable for a missing path — so the
collection is total. -/
def collect_volumes (fs : FS) (mount_args : List String) (work_dir : String)
    (recursive : Bool) : List (String × String) :=
  match mount_args with
  | [] => []
  | a :: rest =>
    expandMount fs work_dir recursive a ++ collect_volumes fs rest work_dir recursive

/-- The key-to-value content of the Python `volumes` dict: the *last*
assignment to a key wins (`volumes[k] = v` overwrites). -/
def volLookup (vols : List (String × String)) (k : String) : Option String :=
  vols.foldl (fun acc p => if p.1 = k then some p.2 else acc) none

/-! ## The effective configuration (`Options`) and the flow of `main` -/

/-- `re.split(r'\s+', s)` followed by dropping empty pieces, as
`read_packages` and the `--package` handling in `main` do. -/
def pySplitWs (s : String) : List String :=
  (((splitWhen isSpaceChar s.toList).map String.mk).filter (fun t => t != ""))

/-- Python `int(v)` where `v` may be `None` (which raises `TypeError`). -/
def pyIntO : Option Value → Except String Int
  | some v => pyInt v
  | none => .error "TypeError: int argument must not be None"

/-- The world a single invocation runs in: the parsed `argparse`
namespace (attribute lookup, `none` for unset/undeclared attributes), the
process environment, readable file contents by path (`none` = missing or
unreadable), the filesystem, the effective uid/gid
(`os.geteuid`/`os.getegid`) and the basename of the current working
directory (consumed by `infer_name`). -/
structure World where
  args : String → Option Value
  env : String → Option String
  files : String → Option String
  fs : FS
  euid : Int
  egid : Int
  cwdName : String

/-- `infer_name`: the current directory name suffixed with `-builder`. -/
def infer_name (cwdName : String) : String := cwdName ++ "-builder"

/-- The `Options` effective-configuration object, one field per attribute
set in `Options.__init__`.  Fields keep the raw resolved `Value` (Python
performs no coercion except `int()` on `verbose`): in particular `uid`
resolved from a config file is a *string*. -/
structure Options where
  apt_keys : Option Value
  apt_sources_file : Option Value
  base_image : Option Value
  command : Option Value
  directory : Option Value
  docker : Option Value
  docker_host : Option Value
  docker_passthrough : Bool
  docker_run_flags : Option Value
  gid : Option Value
  image_name : Option Value
  home_dir : Option Value
  install_script : Option Value
  mount : Option Value
  no_recursive_mount : Bool
  package : List Value
  packages_file : Option Value
  uid : Option Value
  username : Option Value
  shell : Option Value
  verbose : Int
  work_dir : Option Value

/-- `Options.__init__`: every field resolved through the merger exactly as
in the source.  The only fallible step is `int(...)` on `verbose`; an
uncaught `ValueError`/`TypeError` there aborts construction. -/
def mkOptions (m : Merger) (w : World) : Except String Options :=
  match pyIntO (m.get "verbose" (some (.int 0))) with
  | .error e => .error e
  | .ok vb => .ok {
      apt_keys := get_file m w.fs.pathExists "apt-keys" (some (.single DEFAULT_APT_KEYS)),
      apt_sources_file :=
        get_file m w.fs.pathExists "apt-sources-file" (some (.single DEFAULT_APT_SOURCES_FILE)),
      base_image := m.get "base-image" (some (.str DEFAULT_BASE_IMAGE)),
      command := m.get "command" none,
      directory := m.get "directory" none,
      docker := m.get_env "DOCKER" (some (.str DEFAULT_DOCKER)),
      docker_host := m.get_env "DOCKER_HOST" (some (.str DEFAULT_DOCKER_HOST)),
      docker_passthrough := m.get_flag "docker-passthrough",
      docker_run_flags := m.get_env "DOCKER_RUN_FLAGS" (some (.str DEFAULT_DOCKER_RUN_FLAGS)),
      gid := m.get_or_else "gid" (some (.int w.egid)),
      image_name := m.get_or_else "name" (some (.str (infer_name w.cwdName))),
      home_dir := m.get "home-dir" (some (.str DEFAULT_HOME_DIR)),
      install_script :=
        get_file m w.fs.pathExists "install-script" (some (.many [DEFAULT_INSTALL_SCRIPT])),
      mount := m.get "mount" (some (.list [.str "."])),
      no_recursive_mount := m.get_flag "no-recursive-mount",
      package := m.get_list "package",
      packages_file := m.get "packages-file" (some (.str DEFAULT_PACKAGES_FILE)),
      uid := m.get_or_else "uid" (some (.int w.euid)),
      username := m.get "username" (some (.str DEFAULT_USERNAME)),
      shell := m.get "shell" (some (.str DEFAULT_SHELL)),
      verbose := vb,
      work_dir := m.get "work-dir" (some (.str DEFAULT_WORK_DIR)) }

/-- A list of Python values that must all be strings (`TypeError`
otherwise); used where the source calls `Path(x)` / `re.split` on each
element of a resolved list. -/
def strList : List Value → Except String (List String)
  | [] => .ok []
  | .str s :: rest => do
    let r ← strList rest
    .ok (s :: r)
  | _ :: _ => .error "TypeError: expected a string path"

/-- `read_packages` plus the enclosing try/except of `main`: a readable
packages file is split on whitespace; a missing/unreadable file is the
caught `OSError` (printed error, `exit(1)`); a non-string resolved path
would raise `TypeError` uncaught — both abort, so both are `Except.error`
here. -/
def readPackages (files : String → Option String) :
    Option Value → Except String (List String)
  | some (.str p) =>
    match files p with
    | some content => .ok (pySplitWs content)
    | none => .error ("Error opening packages file: " ++ p)
  | _ => .error "TypeError: invalid packages file path"

/-- The `--package` splitting loop of `main`: each resolved package
argument is whitespace-split and the non-empty pieces appended. -/
def splitPkgArgs : List Value → Except String (List String)
  | [] => .ok []
  | .str s :: rest => do
    let r ← splitPkgArgs rest
    .ok (pySplitWs s ++ r)
  | _ :: _ => .error "TypeError: expected string or bytes-like object"

/-- The apt-sources step of `main`: the basename of the resolved apt
sources file, when one was resolved. -/
def aptSourcesStage : Option Value → Except String (Option String)
  | none => .ok none
  | some (.str p) => .ok (some (pyName p))
  | some _ => .error "TypeError: invalid apt sources path"

/-- The apt-keys step of `main`: `os.listdir` on the resolved directory;
a listing failure is an uncaught `OSError` (the source has no handler
around it). -/
def aptKeysStage (fs : FS) : Option Value → Except String (Option (List String))
  | none => .ok none
  | some (.str p) =>
    match fs.listdir p with
    | some names => .ok (some names)
    | none => .error ("OSError: cannot list apt keys directory: " ++ p)
  | some _ => .error "TypeError: invalid apt keys path"

/-- Container-side install-script paths: `scripts/<index>_<basename>`. -/
def installScriptNames (l : List String) : List String :=
  l.enum.map (fun p => pathJoin SCRIPTS_DIR (toString p.1 ++ "_" ++ pyName p.2))

/-- The install-scripts step of `main`: `opts.install_script or []` is
iterated (a falsy value yields nothing; iterating a *string* yields its
characters; a truthy non-iterable raises `TypeError`). -/
def installScriptsStage : Option Value → Except String (List String)
  | none => .ok []
  | some v =>
    if v.truthy then
      match v with
      | .list xs => do
        let paths ← strList xs
        .ok (installScriptNames paths)
      | .str s => .ok (installScriptNames (s.toList.map toString))
      | _ => .error "TypeError: object is not iterable"
    else .ok []

/-- `str(Path(opts.home_dir, opts.work_dir))`: both components must be
strings (`TypeError` otherwise, uncaught). -/
def pathJoinOV : Option Value → Option Value → Except String String
  | some (.str a), some (.str b) => .ok (pathJoin a b)
  | _, _ => .error "TypeError: invalid path component"

/-- The resolved mount option as the list of items `for mount_arg_str in
opts.mount` iterates: a list must contain only strings, iterating a
string yields its one-character substrings, and any other value is not
iterable (`TypeError`).  (Python checks each element lazily at its own
iteration; the model checks them up front, which agrees with the source on
every list whose elements are all strings — the only case the theorems
use.) -/
def mountToArgs : Option Value → Except String (List String)
  | some (.list xs) => strList xs
  | some (.str s) => .ok (s.toList.map toString)
  | some _ => .error "TypeError: object is not iterable"
  | none => .error "TypeError: NoneType object is not iterable"

/-- Where in `main` an early exit happened.  Each site corresponds to one
`exit(1)` call or one uncaught-exception point reachable on the Python
the source requires, in source order.  The `except FileNotFoundError`
handler around `collect_volumes` has no site here: on Python 3.6+
non-strict `Path.resolve` never raises for a missing path, so that
handler cannot fire. -/
inductive ExitSite where
  | configInit
  | optionsInit
  | packagesFile
  | packagesSplit
  | aptSources
  | aptKeys
  | installScripts
  | workDirJoin
  | rootCheck
  | mountIter
deriving DecidableEq, Repr

/-- The state `main` has accumulated when it reaches the uid/gid root
check (line 74 of the source): the effective options, the package list
(file packages plus `--package` extras), the apt sources basename, the
apt key names, the container-side install script paths and the joined
container work directory. -/
structure PreStage where
  opts : Options
  packages : List String
  aptSources : Option String
  aptKeysNames : Option (List String)
  installScripts : List String
  workDir : String

/-- The steps of `main` from `ConfigMerger(args)` up to (but excluding)
the uid/gid root check, in source order; the first failure aborts with
its exit site. -/
def preUidStage (w : World) : Except (ExitSite × String) PreStage := do
  let m ← Except.mapError (fun e => (ExitSite.configInit, e))
    (initConfig w.args w.env w.files w.fs.pathExists)
  let opts ← Except.mapError (fun e => (ExitSite.optionsInit, e)) (mkOptions m w)
  let pkgs ← Except.mapError (fun e => (ExitSite.packagesFile, e))
    (readPackages w.files opts.packages_file)
  let extra ← Except.mapError (fun e => (ExitSite.packagesSplit, e))
    (splitPkgArgs opts.package)
  let asrc ← Except.mapError (fun e => (ExitSite.aptSources, e))
    (aptSourcesStage opts.apt_sources_file)
  let akeys ← Except.mapError (fun e => (ExitSite.aptKeys, e))
    (aptKeysStage w.fs opts.apt_keys)
  let iscr ← Except.mapError (fun e => (ExitSite.installScripts, e))
    (installScriptsStage opts.install_script)
  let wdir ← Except.mapError (fun e => (ExitSite.workDirJoin, e))
    (pathJoinOV opts.home_dir opts.work_dir)
  return ⟨opts, pkgs ++ extra, asrc, akeys, iscr, wdir⟩

/-- The message printed by the root check of `main`. -/
def rootMsg : String :=
  "Cannot run command as root in container (use the --uid and --gid arguments)."

/-- The observable outcome of `main` up to the build boundary. -/
inductive MainOutcome where
  /-- The process printed a message to stderr and exited with `code`
  before invoking any external process.  Explicit `exit(1)` calls and
  uncaught Python exceptions (which print a traceback and exit 1) both
  land here; `site` identifies where in `main` the exit happened. -/
  | exitError (site : ExitSite) (code : Nat) (msg : String)
  /-- `main` passed mount resolution with the given state and volume
  mapping.  Everything after this point — docker-socket passthrough
  injection, Dockerfile templating, build-context writing, and the
  external `docker build` / `docker run` invocations — follows in the
  source; in particular every external process invocation happens
  strictly after this outcome, never on an `exitError`. -/
  | buildPhase (st : PreStage) (volumes : List (String × String))

/-- `main` from argument parsing through mount resolution: the staged
prefix, then the uid/gid root check, then the iteration over
`opts.mount`, then `collect_volumes`.  The source wraps the latter in
`try/except FileNotFoundError` ("Error resolving mount path", `exit(1)`),
but on Python 3.6+ non-strict `Path.resolve` never raises for a missing
path, so that handler is dead code and collection always reaches the
build phase. -/
def mainModel (w : World) : MainOutcome :=
  match preUidStage w with
  | .error (site, e) => .exitError site 1 e
  | .ok st =>
    if pyEqZero st.opts.uid || pyEqZero st.opts.gid then
      .exitError .rootCheck 1 rootMsg
    else
      match mountToArgs st.opts.mount with
      | .error e => .exitError .mountIter 1 e
      | .ok margs =>
        .buildPhase st
          (collect_volumes w.fs margs st.workDir (!st.opts.no_recursive_mount))

/-- Whether the invocation reaches the root check with a resolved uid or
gid that Python compares equal to `0`. -/
def uidCheckTriggered (w : World) : Bool :=
  match preUidStage w with
  | .ok st => pyEqZero st.opts.uid || pyEqZero st.opts.gid
  | .error _ => false

/-- The mount list `main` hands to `collect_volumes`, when the invocation
gets that far. -/
def mountStageArgs (w : World) : Option (List String) :=
  match preUidStage w with
  | .error _ => none
  | .ok st =>
    if pyEqZero st.opts.uid || pyEqZero st.opts.gid then none
    else
      match mountToArgs st.opts.mount with
      | .error _ => none
      | .ok margs => some margs

/-- The outcome reached the build phase (on an `exitError` it never
does, and no external process is invoked). -/
def reachesBuild : MainOutcome → Bool
  | .exitError _ _ _ => false
  | .buildPhase _ _ => true

/-- The host-path keys of a piece of the mapping. -/
def keysOf (l : List (String × String)) : List String := l.map Prod.fst

/-- Two pieces of the mapping touch disjoint host-path keys. -/
def KeyDisjoint (a b : List (String × String)) : Prop :=
  ∀ k, k ∈ keysOf a → k ∉ keysOf b

/-! ## Claim C1 — environment-variable precedence -/

/-- A merger whose args namespace carries a value for attribute `docker`
while the environment sets `DOCKER`; no config file. -/
def c1Merger : Merger :=
  ⟨fun n => if n = "docker" then some (.str "/cli/docker") else none,
   fun n => if n = "DOCKER" then some "/env/docker" else none,
   none⟩

/-- A merger where the environment sets `DOCKER_HOST` while the config
file also defines the daemon-path key the resolver would consult. -/
def c1WitnessMerger : Merger :=
  ⟨fun _ => none,
   fun n => if n = "DOCKER_HOST" then some "unix:///custom.sock" else none,
   some [("docker_host", some "unix:///config.sock")]⟩

/-! ## Claim C7 — config-file key shape and case sensitivity -/

/-- Config file defining the kebab-case key `docker-host` (plus a key
with uppercase letters); no CLI args, no environment. -/
def c7Merger : Merger :=
  ⟨fun _ => none, fun _ => none,
   some [("docker-host", some "tcp://from-config"), ("Base-Image", some "centos")]⟩

/-- Config file defining the snake_case key `docker_host`. -/
def c7SnakeMerger : Merger :=
  ⟨fun _ => none, fun _ => none, some [("docker_host", some "tcp://from-config")]⟩

/-- The spec scenario: section with `base-image = ubuntu:22.04` and a
bare `docker-passthrough` key; no CLI flags, no environment. -/
def c8Merger : Merger :=
  ⟨fun _ => none, fun _ => none,
   some [("base-image", some "ubuntu:22.04"), ("docker-passthrough", none)]⟩

/-! ## Claim C4 — file-default list options -/

/-- A merger with no CLI args, no environment and no config file. -/
def emptyMerger : Merger := ⟨fun _ => none, fun _ => none, none⟩

/-- Existence test for the C4 witness: two of the three candidates are on
disk. -/
def c4Exists : String → Bool :=
  fun p => p == DEFAULT_INSTALL_SCRIPT || p == "scripts/extra.sh"

/-! ## Claim C3 — malformed config files -/

/-- Args namespace passing an explicit `--config-file build.cfg`. -/
def c3Args : String → Option Value :=
  fun n => if n = "config_file" then some (.str "build.cfg") else none

/-- World for the C9 witness: `--uid 0` on the command line, a readable
packages file, no config file, everything else defaulted. -/
def c9World : World :=
  { args := fun n => if n = "uid" then some (.int 0) else none,
    env := fun _ => none,
    files := fun p => if p = DEFAULT_PACKAGES_FILE then some "gcc make" else none,
    fs := { pathExists := fun _ => false, resolve := fun p => p,
            isDir := fun _ => false, scandir := fun _ => [],
            isSymlink := fun _ _ => false, childIsDir := fun _ _ => false,
            listdir := fun _ => none },
    euid := 1000, egid := 1000, cwdName := "proj" }

/-- World for the C2 failing input: `--mount /missing` with a filesystem
on which `/missing` does not exist; non-strict `Path.resolve` returns the
path unchanged. -/
def c2World : World :=
  { args := fun n => if n = "mount" then some (.list [.str "/missing"]) else none,
    env := fun _ => none,
    files := fun p => if p = DEFAULT_PACKAGES_FILE then some "gcc" else none,
    fs := { pathExists := fun _ => false, resolve := fun p => p,
            isDir := fun _ => false, scandir := fun _ => [],
            isSymlink := fun _ _ => false, childIsDir := fun _ _ => false,
            listdir := fun _ => none },
    euid := 1000, egid := 1000, cwdName := "proj" }

/-! ## Claim C5 — order-(ir)relevance of the mount list -/

/-- Filesystem for the C5 counterexample: the two distinct arguments `x`
and `y` (distinct basenames) canonicalize to the same path `/real` (e.g.
one is a symlink to the other). -/
def c5FS : FS :=
  { pathExists := fun _ => false,
    resolve := fun p => if p = "x" || p = "y" then "/real" else p,
    isDir := fun _ => false,
    scandir := fun _ => [],
    isSymlink := fun _ _ => false,
    childIsDir := fun _ _ => false,
    listdir := fun _ => none }

/-- Filesystem for the C5 witness: `a` and `b` canonicalize to distinct
paths, no directories. -/
def c5wFS : FS :=
  { pathExists := fun _ => false,
    resolve := fun p => if p = "a" then "/ra" else if p = "b" then "/rb" else p,
    isDir := fun _ => false,
    scandir := fun _ => [],
    isSymlink := fun _ _ => false,
    childIsDir := fun _ _ => false,
    listdir := fun _ => none }

/-! ## Claim C6 — one level of symlink expansion -/

/-- Filesystem for the C6 witness: `/d` holds the single child `link`, a
symlink to the directory `/elsewhere`. -/
def c6FS : FS :=
  { pathExists := fun _ => false,
    resolve := fun p => if p = "/d" then "/d"
      else if p = "/d/link" then "/elsewhere" else p,
    isDir := fun p => p == "/d",
    scandir := fun p => if p = "/d" then ["link"] else [],
    isSymlink := fun p c => p == "/d" && c == "link",
    childIsDir := fun p c => p == "/d" && c == "link",
    listdir := fun _ => none }

/-! ## Claim C10 — the default mount `.` -/

/-- Filesystem for the C10 counterexample: the current directory `/cwd`
contains the symlinked directory child `link → /elsewhere`. -/
def c10FS : FS :=
  { pathExists := fun _ => false,
    resolve := fun p => if p = "." then "/cwd"
      else if p = "/cwd/link" then "/elsewhere" else p,
    isDir := fun p => p == "/cwd",
    scandir := fun p => if p = "/cwd" then ["link"] else [],
    isSymlink := fun p c => p == "/cwd" && c == "link",
    childIsDir := fun p c => p == "/cwd" && c == "link",
    listdir := fun _ => none }

/-- Filesystem for the C10 witness: `/cwd` has one ordinary (non-symlink)
child. -/
def c10wFS : FS :=
  { pathExists := fun _ => false,
    resolve := fun p => if p = "." then "/cwd" else p,
    isDir := fun p => p == "/cwd",
    scandir := fun p => if p = "/cwd" then ["sub"] else [],
    isSymlink := fun _ _ => false,
    childIsDir := fun _ _ => false,
    listdir := fun _ => none }

/-! # Theorems -/

/-! ## Lemmas about the dict view and `collect_volumes` -/

theorem volLookup_foldl (k : String) (l : List (String × String)) :
    ∀ init : Option String,
      l.foldl (fun acc p => if p.1 = k then some p.2 else acc) init =
        match volLookup l k with
        | some v => some v
        | none => init := by
  induction l with
  | nil => intro init; simp [volLookup]
  | cons p l ih =>
    intro init
    show l.foldl _ (if p.1 = k then some p.2 else init) = _
    rw [ih]
    have hpl : volLookup (p :: l) k =
        match volLookup l k with
        | some v => some v
        | none => if p.1 = k then some p.2 else none := by
      show l.foldl _ (if p.1 = k then some p.2 else none) = _
      rw [ih]
    rw [hpl]
    cases hl : volLookup l k with
    | some v => rfl
    | none => by_cases hp : p.1 = k <;> simp [hp]

theorem volLookup_cons (p : String × String) (l : List (String × String))
    (k : String) :
    volLookup (p :: l) k =
      match volLookup l k with
      | some v => some v
      | none => if p.1 = k then some p.2 else none := by
  show l.foldl _ (if p.1 = k then some p.2 else none) = _
  rw [volLookup_foldl]

theorem volLookup_append (a b : List (String × String)) (k : String) :
    volLookup (a ++ b) k =
      match volLookup b k with
      | some v => some v
      | none => volLookup a k := by
  show (a ++ b).foldl _ none = _
  rw [List.foldl_append, volLookup_foldl]
  rfl

theorem volLookup_eq_none (l : List (String × String)) (k : String)
    (h : ∀ p ∈ l, p.1 ≠ k) : volLookup l k = none := by
  induction l with
  | nil => rfl
  | cons p l ih =>
    rw [volLookup_cons, ih (fun q hq => h q (List.mem_cons_of_mem p hq))]
    simp [h p (List.mem_cons_self p l)]

theorem volLookup_mem (l : List (String × String)) (k v : String)
    (h : volLookup l k = some v) : (k, v) ∈ l := by
  induction l with
  | nil => simp [volLookup] at h
  | cons p l ih =>
    rw [volLookup_cons] at h
    cases hl : volLookup l k with
    | some w =>
      rw [hl] at h
      exact List.mem_cons_of_mem p (ih (hl.trans h))
    | none =>
      rw [hl] at h
      by_cases hp : p.1 = k
      · simp only [hp, if_pos rfl] at h
        cases h
        subst hp
        exact List.mem_cons_self p l
      · simp [hp] at h

theorem volLookup_key_mem (l : List (String × String)) (k v : String)
    (h : volLookup l k = some v) : k ∈ l.map Prod.fst := by
  have := volLookup_mem l k v h
  exact List.mem_map.mpr ⟨(k, v), this, rfl⟩

theorem collect_volumes_flatten (fs : FS) (wd : String) (r : Bool) :
    ∀ l : List String,
      collect_volumes fs l wd r = (l.map (expandMount fs wd r)).flatten := by
  intro l
  induction l with
  | nil => rfl
  | cons a rest ih =>
    rw [collect_volumes, List.map_cons, List.flatten_cons, ih]

theorem keyDisjoint_symm (a b : List (String × String)) (h : KeyDisjoint a b) :
    KeyDisjoint b a := by
  intro k hkb hka
  exact h k hka hkb

theorem volLookup_eq_none_of_key (l : List (String × String)) (k : String)
    (h : k ∉ keysOf l) : volLookup l k = none := by
  apply volLookup_eq_none
  intro p hp hk
  exact h (List.mem_map.mpr ⟨p, hp, hk⟩)

/-- Pure heart of the order-irrelevance statement: if the pieces
contributed by distinct elements have pairwise-disjoint key sets, the
last-writer-wins lookup of the concatenation is invariant under
permutation of the elements. -/
theorem volLookup_flatten_perm {α : Type} (f : α → List (String × String)) :
    ∀ {l l' : List α}, l.Perm l' →
      l.Pairwise (fun a b => KeyDisjoint (f a) (f b)) →
      ∀ k, volLookup (l.map f).flatten k = volLookup (l'.map f).flatten k := by
  intro l l' hperm
  induction hperm with
  | nil => intro _ k; rfl
  | cons x hp ih =>
    intro hpw k
    rw [List.map_cons, List.map_cons, List.flatten_cons, List.flatten_cons,
      volLookup_append, volLookup_append, ih (List.pairwise_cons.mp hpw).2 k]
  | swap x y l =>
    intro hpw k
    have hyx : KeyDisjoint (f y) (f x) :=
      (List.pairwise_cons.mp hpw).1 x (List.mem_cons_self x l)
    simp only [List.map_cons, List.flatten_cons, volLookup_append]
    cases hT : volLookup (l.map f).flatten k with
    | some v => rfl
    | none =>
      cases hx : volLookup (f x) k with
      | some v =>
        have hkx : k ∈ keysOf (f x) := volLookup_key_mem _ _ _ hx
        have hky : k ∉ keysOf (f y) := fun hk => hyx k hk hkx
        rw [volLookup_eq_none_of_key _ _ hky]
      | none =>
        cases hy : volLookup (f y) k <;> rfl
  | trans h12 h23 ih12 ih23 =>
    intro hpw k
    have hpw2 := (h12.pairwise_iff (fun h => keyDisjoint_symm _ _ h)).mp hpw
    rw [ih12 hpw k, ih23 hpw2 k]

/-! ## Lemmas about symlink expansion (`expandChildren`) -/

theorem expandChildren_mem (fs : FS) (src dst : String) :
    ∀ cs : List String, ∀ p ∈ expandChildren fs src dst cs,
      ∃ c ∈ cs, fs.isSymlink src c = true ∧ fs.childIsDir src c = true ∧
        fs.resolve (pathJoin src c) = p.1 ∧ p.2 = pathJoin dst c := by
  intro cs
  induction cs with
  | nil => intro p hp; exact absurd hp (List.not_mem_nil p)
  | cons c cs ih =>
    intro p hp
    by_cases hc : fs.isSymlink src c && fs.childIsDir src c
    · rw [expandChildren, if_pos hc] at hp
      rcases List.mem_cons.mp hp with rfl | hmem
      · exact ⟨c, List.mem_cons_self c cs, Bool.and_elim_left hc,
          Bool.and_elim_right hc, rfl, rfl⟩
      · obtain ⟨d, hd, h1, h2, h3, h4⟩ := ih p hmem
        exact ⟨d, List.mem_cons_of_mem c hd, h1, h2, h3, h4⟩
    · rw [expandChildren, if_neg hc] at hp
      obtain ⟨d, hd, h1, h2, h3, h4⟩ := ih p hp
      exact ⟨d, List.mem_cons_of_mem c hd, h1, h2, h3, h4⟩

theorem expandChildren_lookup_none (fs : FS) (src dst E : String)
    (cs : List String)
    (hE : ∀ c ∈ cs, fs.isSymlink src c = true → fs.childIsDir src c = true →
      fs.resolve (pathJoin src c) ≠ E) :
    volLookup (expandChildren fs src dst cs) E = none := by
  apply volLookup_eq_none
  intro p hp hk
  obtain ⟨c, hc, h1, h2, h3, -⟩ := expandChildren_mem fs src dst cs p hp
  exact hE c hc h1 h2 (h3.trans hk)

theorem expandChildren_lookup_last (fs : FS) (src dst L E : String)
    (hsym : fs.isSymlink src L = true) (hLdir : fs.childIsDir src L = true)
    (hE : fs.resolve (pathJoin src L) = E) :
    ∀ cs : List String, L ∈ cs →
      (∀ c ∈ cs, c ≠ L → fs.isSymlink src c = true →
        fs.childIsDir src c = true → fs.resolve (pathJoin src c) ≠ E) →
      volLookup (expandChildren fs src dst cs) E = some (pathJoin dst L) := by
  intro cs
  induction cs with
  | nil => intro hmem; exact absurd hmem (List.not_mem_nil L)
  | cons c cs ih =>
    intro hmem hother
    by_cases hc : fs.isSymlink src c && fs.childIsDir src c
    · rw [expandChildren, if_pos hc, volLookup_cons]
      by_cases hLcs : L ∈ cs
      · rw [ih hLcs (fun d hd => hother d (List.mem_cons_of_mem c hd))]
      · have hcL : c = L := by
          rcases List.mem_cons.mp hmem with rfl | hmem2
          · rfl
          · exact absurd hmem2 hLcs
        subst hcL
        have hnone : volLookup (expandChildren fs src dst cs) E = none := by
          apply expandChildren_lookup_none fs src dst E cs
          intro d hd hd1 hd2
          have hdc : d ≠ c := fun hdc => hLcs (hdc ▸ hd)
          exact hother d (List.mem_cons_of_mem c hd) hdc hd1 hd2
        rw [hnone]
        simp [hE]
    · rw [expandChildren, if_neg hc]
      have hcL : c ≠ L := by
        intro hcL
        subst hcL
        rw [hsym, hLdir] at hc
        exact hc rfl
      have hLcs : L ∈ cs := by
        rcases List.mem_cons.mp hmem with rfl | hmem2
        · exact absurd rfl hcL
        · exact hmem2
      exact ih hLcs (fun d hd => hother d (List.mem_cons_of_mem c hd))

theorem claimC1_counterexample :
    c1Merger.args "docker" = some (.str "/cli/docker") ∧
    c1Merger.env "DOCKER" = some "/env/docker" ∧
    Merger.get_env c1Merger "DOCKER" (some (.str DEFAULT_DOCKER)) =
      some (.str "/env/docker") ∧
    Merger.get_env c1Merger "DOCKER" (some (.str DEFAULT_DOCKER)) ≠
      some (.str "/cli/docker") := by
  refine ⟨rfl, rfl, rfl, fun h => ?_⟩
  have h2 : Value.str "/env/docker" = Value.str "/cli/docker" :=
    Option.some.inj h
  simp only [Value.str.injEq] at h2
  exact absurd h2 (by decide)

/-- C1 (amended): for every option resolved through `get_env`, a set
environment variable determines the resolved value — its raw string wins
over the args namespace, the config file and the default alike.  (No CLI
flag exists for the env-var options, so no command line can contradict
this; a hypothetical args-namespace value would also lose.) -/
theorem claimC1_amended (m : Merger) (name v : String) (d : Option Value)
    (h : m.env name = some v) :
    m.get_env name d = some (.str v) := by
  rw [Merger.get_env, h]

/-- C1 witness: with `DOCKER_HOST=unix:///custom.sock` in the environment
and a daemon-path key in the config file, the resolved daemon path is the
environment value. -/
theorem claimC1_witness :
    Merger.get_env c1WitnessMerger "DOCKER_HOST"
      (some (.str DEFAULT_DOCKER_HOST)) = some (.str "unix:///custom.sock") :=
  claimC1_amended c1WitnessMerger "DOCKER_HOST" "unix:///custom.sock"
    (some (.str DEFAULT_DOCKER_HOST)) rfl

/-- C7 counterexample: the daemon-path option does not consult the
kebab-case key — a config file defining `docker-host` is ignored (the
default wins), while `docker_host` (the lowercased environment name) is
honoured; and matching is case-insensitive, so the key `Base-Image`
resolves the `base-image` option, contradicting "matched
case-sensitively". -/
theorem claimC7_counterexample :
    Merger.get_env c7Merger "DOCKER_HOST" (some (.str DEFAULT_DOCKER_HOST)) =
      some (.str DEFAULT_DOCKER_HOST) ∧
    Merger.get_env c7SnakeMerger "DOCKER_HOST" (some (.str DEFAULT_DOCKER_HOST)) =
      some (.str "tcp://from-config") ∧
    Merger.get c7Merger "base-image" (some (.str DEFAULT_BASE_IMAGE)) =
      some (.str "centos") :=
  ⟨rfl, rfl, rfl⟩

/-- C7 (amended): the key consulted in the active section is the name the
resolver passes — the kebab-case long name for CLI-backed options but the
*lowercased environment name* (snake_case) for the env-var options — and
it is matched case-insensitively (configparser lowercases both sides):
(1) a single-entry section whose key lowercases to the queried name
resolves to its value; (2) one that does not lowercase to it leaves the
default; (3) with the environment unset, `get_env NAME` consults exactly
the config key `NAME.lower()`. -/
theorem claimC7_amended :
    (∀ (name k v : String) (d : Option Value), pyLower k = pyLower name →
      (Merger.mk (fun _ => none) (fun _ => none) (some [(k, some v)])).get_or_else
        name d = some (.str v)) ∧
    (∀ (name k v : String) (d : Option Value), pyLower k ≠ pyLower name →
      (Merger.mk (fun _ => none) (fun _ => none) (some [(k, some v)])).get_or_else
        name d = d) ∧
    (∀ (m : Merger) (envName : String) (d : Option Value),
      m.env envName = none → m.get_env envName d = m.get (pyLower envName) d) := by
  refine ⟨?_, ?_, ?_⟩
  · intro name k v d h
    simp [Merger.get_or_else, sectionLookup, h]
  · intro name k v d h
    simp [Merger.get_or_else, sectionLookup, h]
  · intro m envName d h
    rw [Merger.get_env, h]

/-- C7 witness: the uppercase-lettered key `Base-Image` resolves the
`base-image` option (case-insensitive match). -/
theorem claimC7_witness :
    (Merger.mk (fun _ => none) (fun _ => none)
      (some [("Base-Image", some "focal")])).get_or_else "base-image" none =
      some (.str "focal") :=
  claimC7_amended.1 "base-image" "Base-Image" "focal" none (by decide)

/-! ## Claim C8 — bare ini keys resolve to `True` -/

/-- C8: a key present in the active section with no value (bare ini key)
resolves to the boolean `true` when no CLI argument supplies the option,
both through `get_or_else` and through `get_flag`. -/
theorem claimC8_bare_key (m : Merger) (sec : List (String × Option String))
    (name : String) (d : Option Value)
    (hc : m.config = some sec)
    (ha : m.args (underscoreName name) = none)
    (hk : sectionLookup sec name = some none) :
    m.get_or_else name d = some (.bool true) ∧ m.get_flag name = true := by
  have h1 : m.get_or_else name d = some (.bool true) := by
    simp only [Merger.get_or_else, ha, hc, hk]
  have h2 : m.get name none = some (.bool true) := by
    simp only [Merger.get, Merger.get_or_else, ha, hc, hk]
  refine ⟨h1, ?_⟩
  simp only [Merger.get_flag, h2]

/-- C8 witness (the spec scenario): the passthrough flag resolves to
`true` and the base image to `ubuntu:22.04`. -/
theorem claimC8_witness :
    Merger.get_flag c8Merger "docker-passthrough" = true ∧
    Merger.get c8Merger "base-image" (some (.str DEFAULT_BASE_IMAGE)) =
      some (.str "ubuntu:22.04") :=
  ⟨(claimC8_bare_key c8Merger
      [("base-image", some "ubuntu:22.04"), ("docker-passthrough", none)]
      "docker-passthrough" none rfl rfl rfl).2, rfl⟩

/-- C4 counterexample: with no candidate default path existing on disk,
`get_file` returns `None` (Python falls off the end of the function), not
the empty list the claim promises. -/
theorem claimC4_counterexample :
    get_file emptyMerger (fun _ => false) "install-script"
      (some (.many [DEFAULT_INSTALL_SCRIPT])) = none ∧
    get_file emptyMerger (fun _ => false) "install-script"
      (some (.many [DEFAULT_INSTALL_SCRIPT])) ≠ some (.list []) :=
  ⟨rfl, fun h => Option.noConfusion h⟩

/-- C4 (amended): with no CLI/config value and the negation flag falsy,
a list default resolves to exactly the existing candidates in their
original order when at least one exists, and to `None` (not the empty
list) when none exists; the consumer later coerces that `None` to an
empty iteration. -/
theorem claimC4_amended (m : Merger) (pathExists : String → Bool)
    (name : String) (ds : List String)
    (h1 : m.get name none = none)
    (h2 : optTruthy (m.get ("no-" ++ name) none) = false) :
    get_file m pathExists name (some (.many ds)) =
      if (ds.filter pathExists).isEmpty then none
      else some (.list ((ds.filter pathExists).map Value.str)) := by
  simp only [get_file, h1, h2]
  rfl

/-- C4 witness: of the candidates `[missing.sh, container-build/install.sh,
scripts/extra.sh]` exactly the two existing ones are returned, in their
original order. -/
theorem claimC4_witness :
    get_file emptyMerger c4Exists "install-script"
      (some (.many ["missing.sh", DEFAULT_INSTALL_SCRIPT, "scripts/extra.sh"])) =
      some (.list [.str DEFAULT_INSTALL_SCRIPT, .str "scripts/extra.sh"]) :=
  (claimC4_amended emptyMerger c4Exists "install-script"
    ["missing.sh", DEFAULT_INSTALL_SCRIPT, "scripts/extra.sh"] rfl rfl).trans rfl

/-- C3 counterexample: `ConfigParser.read` does *not* treat malformed ini
text as zero sections — an option line before any section header raises
`MissingSectionHeaderError`, which `ConfigMerger.__init__` does not
catch, so resolution crashes instead of proceeding on CLI/env/defaults. -/
theorem claimC3_counterexample :
    initConfig c3Args (fun _ => none)
      (fun p => if p = "build.cfg"
        then some "stray option line\n[proj]\nbase-image = x\n" else none)
      (fun _ => false) =
      .error "MissingSectionHeaderError: file contains no section headers" := rfl

/-- C3 (amended): a *missing* config file, or one that parses with zero
sections, is what yields graceful degradation: construction succeeds with
no active section and every option resolves from the args namespace and
the defaults alone.  Malformed ini text instead raises an uncaught
parsing error (see the counterexample). -/
theorem claimC3_amended (args : String → Option Value)
    (env : String → Option String) (files : String → Option String)
    (pathExists : String → Bool) (p : String)
    (hp : args "config_file" = some (Value.str p))
    (hmiss : files p = none ∨ ∃ c, files p = some c ∧ iniParse c = .ok []) :
    initConfig args env files pathExists = .ok (Merger.mk args env none) ∧
    ∀ (name : String) (d : Option Value),
      (Merger.mk args env none).get_or_else name d =
        match args (underscoreName name) with
        | some v => some v
        | none => d := by
  have hg : (Merger.mk args env none).get "config-file" none = some (Value.str p) := by
    simp only [Merger.get, Merger.get_or_else]
    have hu : underscoreName "config-file" = "config_file" := rfl
    rw [hu, hp]
  have hgf : get_file (Merger.mk args env none) pathExists "config-file"
      (some (.single DEFAULT_CONFIG_FILE)) = some (.str p) := by
    simp only [get_file, hg]
  constructor
  · show (match get_file (Merger.mk args env none) pathExists "config-file"
        (some (.single DEFAULT_CONFIG_FILE)) with
      | none => Except.ok (Merger.mk args env none)
      | some (.str path) =>
        match files path with
        | none => Except.ok (Merger.mk args env none)
        | some content =>
          match iniParse content with
          | .error e => .error e
          | .ok [] => .ok (Merger.mk args env none)
          | .ok (sec :: _) => .ok { Merger.mk args env none with config := some sec.2 }
      | some _ => Except.error "TypeError: argument should be a str or an os.PathLike object") =
      Except.ok (Merger.mk args env none)
    rw [hgf]
    show (match files p with
      | none => Except.ok (Merger.mk args env none)
      | some content =>
        match iniParse content with
        | .error e => .error e
        | .ok [] => .ok (Merger.mk args env none)
        | .ok (sec :: _) =>
          .ok { Merger.mk args env none with config := some sec.2 }) =
      Except.ok (Merger.mk args env none)
    rcases hmiss with h | ⟨c, hc, hparse⟩
    · rw [h]
    · simp only [hc, hparse]
  · intro name d
    simp only [Merger.get_or_else]

/-- C3 witness: a missing config file degrades gracefully — construction
succeeds with no active section. -/
theorem claimC3_witness :
    initConfig c3Args (fun _ => none) (fun _ => none) (fun _ => false) =
      .ok (Merger.mk c3Args (fun _ => none) none) :=
  (claimC3_amended c3Args (fun _ => none) (fun _ => none) (fun _ => false)
    "build.cfg" rfl (Or.inl rfl)).1

/-! ## Unfolding equations for the staged `main` model -/

theorem uidCheckTriggered_error (w : World) (p : ExitSite × String)
    (hpre : preUidStage w = .error p) : uidCheckTriggered w = false := by
  rw [uidCheckTriggered, hpre]

theorem uidCheckTriggered_ok (w : World) (st : PreStage)
    (hpre : preUidStage w = .ok st) :
    uidCheckTriggered w = (pyEqZero st.opts.uid || pyEqZero st.opts.gid) := by
  rw [uidCheckTriggered, hpre]

theorem mainModel_ok (w : World) (st : PreStage)
    (hpre : preUidStage w = .ok st) :
    mainModel w =
      if pyEqZero st.opts.uid || pyEqZero st.opts.gid then
        .exitError .rootCheck 1 rootMsg
      else
        match mountToArgs st.opts.mount with
        | .error e => .exitError .mountIter 1 e
        | .ok margs =>
          .buildPhase st
            (collect_volumes w.fs margs st.workDir (!st.opts.no_recursive_mount)) := by
  rw [mainModel, hpre]

/-! ## Claim C9 — uid/gid of 0 is rejected before any external process -/

/-- C9: whenever the invocation reaches the root check with a resolved
uid or gid that Python compares equal to `0`, `main` prints the root
error message and exits with code 1; the outcome is an `exitError`, on
which no external process (image build or container run) is ever
invoked. -/
theorem claimC9_root_rejected (w : World) (h : uidCheckTriggered w = true) :
    mainModel w = .exitError .rootCheck 1 rootMsg := by
  cases hpre : preUidStage w with
  | error p =>
    rw [uidCheckTriggered_error w p hpre] at h
    cases h
  | ok st =>
    rw [uidCheckTriggered_ok w st hpre] at h
    rw [mainModel_ok w st hpre]
    simp [h]

/-- C9 witness: with `--uid 0` the invocation stops at the root check. -/
theorem claimC9_witness :
    mainModel c9World = .exitError .rootCheck 1 rootMsg :=
  claimC9_root_rejected c9World (by decide)

/-! ## Claim C2 — a missing mount path is NOT a path-not-found abort -/

/-- C2 (code bug, the code evaluated at the failing input): with
`--mount /missing` and `/missing` absent from the filesystem, non-strict
`Path.resolve` returns the path unchanged, `is_dir` is false, and
`collect_volumes` silently records the entry
`/missing ↦ workDir/missing`; `main` hands `["/missing"]` to the
collection and reaches the build phase with that mapping, instead of
printing "Error resolving mount path" and exiting non-zero as the claim
(and the dead `except FileNotFoundError` handler in the source) expect. -/
theorem claimC2_missing_mount_proceeds :
    c2World.fs.pathExists "/missing" = false ∧
    mountStageArgs c2World = some ["/missing"] ∧
    collect_volumes c2World.fs ["/missing"] "/home/build/src" true =
      [("/missing", "/home/build/src/missing")] ∧
    reachesBuild (mainModel c2World) = true :=
  ⟨rfl, by decide, rfl, by decide⟩

/-- C5 counterexample: the mount list `[x, y]` has no duplicate
basenames, yet reordering it changes the final mapping — both entries
canonicalize to the host key `/real`, and last-writer-wins assigns it
`/w/x` in one order and `/w/y` in the other. -/
theorem claimC5_counterexample :
    pyName "x" ≠ pyName "y" ∧
    collect_volumes c5FS ["x", "y"] "/w" false =
      [("/real", "/w/x"), ("/real", "/w/y")] ∧
    collect_volumes c5FS ["y", "x"] "/w" false =
      [("/real", "/w/y"), ("/real", "/w/x")] ∧
    volLookup (collect_volumes c5FS ["x", "y"] "/w" false) "/real" ≠
      volLookup (collect_volumes c5FS ["y", "x"] "/w" false) "/real" :=
  ⟨by decide, rfl, rfl, by decide⟩

/-- C5 (amended): reordering the mount list leaves the final
host-to-container mapping unchanged provided the *host-path key sets*
contributed by distinct entries are pairwise disjoint (distinct basenames
alone do not suffice: two entries may canonicalize to the same path, or
symlink expansion may produce colliding keys).  Under that disjointness,
any permutation of the list yields the same last-writer-wins mapping. -/
theorem claimC5_amended (fs : FS) (wd : String) (r : Bool)
    (l l' : List String) (hperm : l.Perm l')
    (hdisj : l.Pairwise (fun a b =>
      KeyDisjoint (expandMount fs wd r a) (expandMount fs wd r b))) :
    ∀ k, volLookup (collect_volumes fs l wd r) k =
      volLookup (collect_volumes fs l' wd r) k := by
  intro k
  rw [collect_volumes_flatten fs wd r l, collect_volumes_flatten fs wd r l']
  exact volLookup_flatten_perm (expandMount fs wd r) hperm hdisj k

/-- C5 witness: with disjoint canonical keys, `[a, b]` and `[b, a]`
produce the same mapping at the key `/rb`. -/
theorem claimC5_witness :
    volLookup (collect_volumes c5wFS ["a", "b"] "/w" false) "/rb" =
      volLookup (collect_volumes c5wFS ["b", "a"] "/w" false) "/rb" := by
  have hpw : List.Pairwise (fun a b =>
      KeyDisjoint (expandMount c5wFS "/w" false a)
        (expandMount c5wFS "/w" false b)) ["a", "b"] := by
    refine List.Pairwise.cons ?_ (List.Pairwise.cons ?_ List.Pairwise.nil)
    · intro b hb
      have hbb : b = "b" := List.mem_singleton.mp hb
      subst hbb
      intro k hk
      have hca : expandMount c5wFS "/w" false "a" = [("/ra", "/w/a")] := rfl
      have hcb : expandMount c5wFS "/w" false "b" = [("/rb", "/w/b")] := rfl
      rw [hca] at hk
      rw [hcb]
      have hk2 : k = "/ra" := by
        simpa [keysOf] using hk
      subst hk2
      simp [keysOf]
    · intro c hc
      exact absurd hc (List.not_mem_nil c)
  exact claimC5_amended c5wFS "/w" false ["a", "b"] ["b", "a"]
    (List.Perm.swap "b" "a" []) hpw "/rb"

/-- C6: mounting a directory `D` (resolved to `Dc`) that contains a
direct-child symlink `L` resolving to the directory `E`, with recursive
expansion on, yields a mapping with both `Dc ↦ workDir/basename(D)` and
`E ↦ workDir/basename(D)/L`; and every key of the mapping is either a
mount argument's resolved path or that of one of its *direct* children —
children of children are never scanned.  (The side conditions say no
*other* child collides with `Dc` or `E`; without them last-writer-wins
could overwrite the claimed entries.) -/
theorem claimC6_symlink_expansion (fs : FS) (wd D Dc L E : String)
    (hD : fs.resolve D = Dc) (hdir : fs.isDir Dc = true)
    (hL : L ∈ fs.scandir Dc) (hsym : fs.isSymlink Dc L = true)
    (hLdir : fs.childIsDir Dc L = true)
    (hE : fs.resolve (pathJoin Dc L) = E)
    (hnoD : ∀ c ∈ fs.scandir Dc, fs.isSymlink Dc c = true →
      fs.childIsDir Dc c = true → fs.resolve (pathJoin Dc c) ≠ Dc)
    (hnoE : ∀ c ∈ fs.scandir Dc, c ≠ L → fs.isSymlink Dc c = true →
      fs.childIsDir Dc c = true → fs.resolve (pathJoin Dc c) ≠ E) :
    volLookup (collect_volumes fs [D] wd true) Dc =
      some (pathJoin wd (pyName D)) ∧
    volLookup (collect_volumes fs [D] wd true) E =
      some (pathJoin (pathJoin wd (pyName D)) L) ∧
    ∀ p ∈ collect_volumes fs [D] wd true, p.1 = Dc ∨
      ∃ c ∈ fs.scandir Dc, fs.resolve (pathJoin Dc c) = p.1 := by
  have hcol : collect_volumes fs [D] wd true =
      (Dc, pathJoin wd (pyName D)) ::
        expandChildren fs Dc (pathJoin wd (pyName D)) (fs.scandir Dc) := by
    show expandMount fs wd true D ++ [] = _
    rw [List.append_nil]
    simp only [expandMount, hD, hdir, Bool.true_and, if_true]
  refine ⟨?_, ?_, ?_⟩
  · rw [hcol, volLookup_cons,
      expandChildren_lookup_none fs Dc (pathJoin wd (pyName D)) Dc
        (fs.scandir Dc) hnoD]
    simp
  · rw [hcol, volLookup_cons,
      expandChildren_lookup_last fs Dc (pathJoin wd (pyName D)) L E
        hsym hLdir hE (fs.scandir Dc) hL hnoE]
  · intro p hp
    rw [hcol] at hp
    rcases List.mem_cons.mp hp with rfl | hmem
    · exact Or.inl rfl
    · obtain ⟨c, hc, -, -, hres', -⟩ :=
        expandChildren_mem fs Dc (pathJoin wd (pyName D)) (fs.scandir Dc)
          p hmem
      exact Or.inr ⟨c, hc, hres'⟩

/-- C6 witness: mounting `/d` maps the symlink target `/elsewhere` to
`workDir/d/link`. -/
theorem claimC6_witness :
    volLookup (collect_volumes c6FS ["/d"] "/home/build/src" true)
      "/elsewhere" = some "/home/build/src/d/link" :=
  (claimC6_symlink_expansion c6FS "/home/build/src" "/d" "/d" "link"
    "/elsewhere" rfl (by decide) (by decide) (by decide) (by decide) rfl
    (by decide) (by decide)).2.1

/-- C10 counterexample: with no mount supplied the list defaults to `["."]`
and the first entry does bind the resolved cwd to the work directory
itself — but the mapping is *not* always exactly one entry: recursive
expansion (on by default) adds an entry per symlinked directory child of
the cwd, two entries here. -/
theorem claimC10_counterexample :
    Merger.get emptyMerger "mount" (some (.list [.str "."])) =
      some (.list [.str "."]) ∧
    collect_volumes c10FS ["."] "/home/build/src" true =
      [("/cwd", "/home/build/src"), ("/elsewhere", "/home/build/src/link")] ∧
    (collect_volumes c10FS ["."] "/home/build/src" true).length ≠ 1 :=
  ⟨rfl, rfl, by decide⟩

/-- C10 (amended): when no mount is supplied by CLI or config file, the
mount option resolves to the default `["."]`; the basename of `.` is
empty, so the single top-level entry binds the resolved current
directory to the container work directory itself (not a subdirectory);
and the mapping is exactly that one entry provided recursive expansion
finds no symlink-to-directory child of the cwd. -/
theorem claimC10_amended (m : Merger) (fs : FS) (wd cwd : String)
    (hargs : m.args "mount" = none)
    (hcfg : m.config = none ∨
      ∃ sec, m.config = some sec ∧ sectionLookup sec "mount" = none)
    (hres : fs.resolve "." = cwd)
    (hkids : ∀ c ∈ fs.scandir cwd,
      (fs.isSymlink cwd c && fs.childIsDir cwd c) = false) :
    Merger.get m "mount" (some (.list [.str "."])) = some (.list [.str "."]) ∧
    collect_volumes fs ["."] wd true = [(cwd, wd)] := by
  constructor
  · simp only [Merger.get, Merger.get_or_else]
    have hu : underscoreName "mount" = "mount" := rfl
    rw [hu, hargs]
    rcases hcfg with h | ⟨sec, hsec, hlook⟩
    · rw [h]
    · simp only [hsec, hlook]
  · have hexp0 : ∀ cs : List String,
        (∀ c ∈ cs, (fs.isSymlink cwd c && fs.childIsDir cwd c) = false) →
        expandChildren fs cwd wd cs = [] := by
      intro cs
      induction cs with
      | nil => intro _; rfl
      | cons c cs ih =>
        intro h
        have hc := h c (List.mem_cons_self c cs)
        simp only [expandChildren, hc, Bool.false_eq_true, if_false]
        exact ih (fun d hd => h d (List.mem_cons_of_mem c hd))
    have hdst : pathJoin wd (pyName ".") = wd := rfl
    show expandMount fs wd true "." ++ [] = [(cwd, wd)]
    rw [List.append_nil]
    cases hdir : fs.isDir cwd with
    | false =>
      simp only [expandMount, hres, hdir, Bool.true_and, Bool.false_eq_true,
        if_false, hdst]
    | true =>
      simp only [expandMount, hres, hdir, Bool.true_and, if_true, hdst,
        hexp0 (fs.scandir cwd) hkids]

/-- C10 witness: with no symlinked children the default mount resolves to
the single entry binding `/cwd` to the work directory itself. -/
theorem claimC10_witness :
    Merger.get emptyMerger "mount" (some (.list [.str "."])) =
      some (.list [.str "."]) ∧
    collect_volumes c10wFS ["."] "/home/build/src" true =
      [("/cwd", "/home/build/src")] :=
  claimC10_amended emptyMerger c10wFS "/home/build/src" "/cwd" rfl (Or.inl rfl)
    rfl (by decide)

end ContainerBuild
